import Mathlib

/-!
Verification development for the HLAS insurance chatbot repository.

Shallow embedding of the Python source under `src/` into Lean 4:
pure fragments become Lean functions, the Mongo-backed session document
becomes an explicit `SessionDoc` value, Python dicts become association
lists (`PyDict`), and every external language-model call becomes an
explicit oracle parameter (`Except` for calls whose failure the source
catches), so each claim quantifies over all outcomes of those calls.
Character-class tests (`str.isdigit`, `\w`, `\s`, `str.lower`) are
modelled over their ASCII semantics, which covers every value the
claims and the source's fixed string constants exercise.
-/

namespace HLAS

/-! ## Python-style string and dict primitives -/

/-- Python whitespace for `str.strip` / `str.split` / the regex class `\s`
(space, tab, newline, carriage return, vertical tab, form feed). -/
def pyIsSpace (c : Char) : Bool :=
  c = ' ' || c = '\t' || c = '\n' || c = '\r' || c = '\x0b' || c = '\x0c'

/-- Python `str.strip()`: drop leading and trailing whitespace. -/
def pyStrip (s : String) : String :=
  ⟨((s.toList.dropWhile pyIsSpace).reverse.dropWhile pyIsSpace).reverse⟩

/-- Python `str.lower()` (ASCII letters). -/
def pyLower (s : String) : String :=
  ⟨s.toList.map Char.toLower⟩

/-- Python's `\w` regex class over ASCII: letters, digits, underscore. -/
def pyIsWordChar (c : Char) : Bool :=
  c.isAlphanum || c = '_'

/-- Python `str.isdigit()` over ASCII: non-empty and all digits. -/
def pyIsDigitStr (s : String) : Bool :=
  s ≠ "" && s.toList.all Char.isDigit

/-- Python `str.isalpha()` over ASCII: non-empty and all letters. -/
def pyIsAlphaStr (s : String) : Bool :=
  s ≠ "" && s.toList.all Char.isAlpha

/-- Helper for `str.split()` with no argument: split on whitespace runs,
discarding empty pieces; `acc` holds the current word reversed. -/
def pySplitAux : List Char → List Char → List String
  | [], acc => if acc.isEmpty then [] else [⟨acc.reverse⟩]
  | c :: rest, acc =>
      if pyIsSpace c then
        if acc.isEmpty then pySplitAux rest []
        else ⟨acc.reverse⟩ :: pySplitAux rest []
      else pySplitAux rest (c :: acc)

/-- Python `str.split()` with no argument. -/
def pySplit (s : String) : List String :=
  pySplitAux s.toList []

/-- A Python `dict` with string keys, as an association list keeping
insertion order (first binding of a key is its value; keys are unique in
every dict the embedding builds). -/
def alookup {α : Type} : List (String × α) → String → Option α
  | [], _ => none
  | (k, v) :: rest, key => if k = key then some v else alookup rest key

/-- Python `d.get(key, default)`. -/
def agetD {α : Type} (d : List (String × α)) (key : String) (dflt : α) : α :=
  (alookup d key).getD dflt

/-- Python `key in d`. -/
def acontains {α : Type} (d : List (String × α)) (key : String) : Bool :=
  (alookup d key).isSome

/-- Python `d[key] = v`: overwrite in place, or append a new binding. -/
def aset {α : Type} : List (String × α) → String → α → List (String × α)
  | [], key, v => [(key, v)]
  | (k, w) :: rest, key, v =>
      if k = key then (k, v) :: rest else (k, w) :: aset rest key v

/-- A Python dict whose values are strings. -/
abbrev PyDict := List (String × String)

/-- The last `n` elements of a list (Mongo's negative `$slice`). -/
def takeLast {α : Type} (n : Nat) (l : List α) : List α :=
  l.drop (l.length - n)

/-! ## Data model (src/agents/primary_intent_agent.py, src/app/session_manager.py) -/

/-- Enumeration for the different products (primary_intent_agent.py). -/
inductive Product where
  | TRAVEL
  | MAID
  | POLICY_CLAIM_STATUS
  | UNKNOWN
deriving Repr, DecidableEq

/-- The string value of the `str`-valued `Product` enum. -/
def Product.value : Product → String
  | .TRAVEL => "TRAVEL"
  | .MAID => "MAID"
  | .POLICY_CLAIM_STATUS => "POLICY_CLAIM_STATUS"
  | .UNKNOWN => "UNKNOWN"

/-- The structured intent-classification result (primary_intent_agent.py,
class `Intent`). -/
structure Intent where
  product : Product
  intent : String
  confidence : ℚ
  requires_clarification : Bool
deriving Repr, DecidableEq

/-- One entry of a session's `chat_history`; timestamps are abstract ticks. -/
structure ChatMsg where
  role : String
  content : String
  timestamp : Nat
deriving Repr, DecidableEq

/-- The `conversation_context` sub-document of a session, restricted to the
fields the embedded functions read. -/
structure ConversationContext where
  primary_product : Option Product
  recommended_plan : Option String
  error_count : Nat
deriving Repr, DecidableEq

/-- A `conversations` document as `get_session` initializes and the store
mutates it (session_manager.py). `collected_info` maps an info kind
(`travel_info`, `payment_info`, ...) to its field map. -/
structure SessionDoc where
  chat_history : List ChatMsg
  stage : String
  message_count : Nat
  last_active : Nat
  collected_info : List (String × PyDict)
  context : ConversationContext
deriving Repr, DecidableEq

/-- The default document `get_session` inserts for a never-seen id
(`$setOnInsert` in session_manager.py). -/
def freshSession : SessionDoc :=
  { chat_history := []
    stage := "initial"
    message_count := 0
    last_active := 0
    collected_info := []
    context := { primary_product := none, recommended_plan := none, error_count := 0 } }

/-! ## src/app/config.py -/

/-- Chat-history window (config.py). -/
def MAX_CONTEXT_MESSAGES : Nat := 10

/-! ## src/app/session_manager.py -/

/-- `update_session(session_id, user_message, agent_response)` as a pure
update of the stored document: `$push` both entries onto `chat_history`,
`$set last_active`, `$inc message_count`. The stored array is not
truncated by this operation. -/
def update_session (doc : SessionDoc) (user_message agent_response : String)
    (now : Nat) : SessionDoc :=
  { doc with
    chat_history := doc.chat_history ++
      [{ role := "user", content := user_message, timestamp := now },
       { role := "assistant", content := agent_response, timestamp := now }]
    last_active := now
    message_count := doc.message_count + 1 }

/-- `get_chat_history(session_id)`: reads the stored history through the
projection `chat_history: {$slice: -(MAX_CONTEXT_MESSAGES * 2)}`, i.e. the
last 20 entries. -/
def get_chat_history (doc : SessionDoc) : List ChatMsg :=
  takeLast (MAX_CONTEXT_MESSAGES * 2) doc.chat_history

/-! ## src/agents/primary_intent_agent.py -/

/-- The dict `validate_user_input` returns: `is_valid`, an `issue_type` key
present only on failure, and `message`. -/
structure ValidationResult where
  is_valid : Bool
  issue_type : Option String
  message : String
deriving Repr, DecidableEq

/-- The single-character allowances of the too-short check
(`stripped_message.lower() in ['y', 'n', '1', '2', '3', '4', '5']`). -/
def shortAllowList : List String := ["y", "n", "1", "2", "3", "4", "5"]

/-- The regex `^(.)\1{10,}$`: a captured character (`.` excludes newline)
followed by ten or more repetitions of it — eleven or more copies in all. -/
def regexRepeatedChar (s : String) : Bool :=
  match s.toList with
  | [] => false
  | c :: rest => c ≠ '\n' && 10 ≤ rest.length && rest.all (· = c)

/-- The regex `^[^\w\s]+$`: non-empty and every character neither a word
character nor whitespace. -/
def regexOnlySymbols (s : String) : Bool :=
  s ≠ "" && s.toList.all (fun c => !pyIsWordChar c && !pyIsSpace c)

/-- `validate_user_input(user_message)` (primary_intent_agent.py lines
27-74): empty, too-short (with digit and y/n/1-5 allowances), repeated
characters, symbols only, too long, else valid — checked in that order. -/
def validate_user_input (user_message : String) : ValidationResult :=
  if user_message = "" || pyStrip user_message = "" then
    { is_valid := false, issue_type := some "empty_input",
      message := "Please type your message. I'm here to help with your insurance needs! 😊" }
  else
    let stripped_message := pyStrip user_message
    if stripped_message.length < 2 &&
        !(pyIsDigitStr stripped_message ||
          shortAllowList.contains (pyLower stripped_message)) then
      { is_valid := false, issue_type := some "too_short",
        message := "Could you please provide a bit more detail? I'd love to help you with your insurance questions! 🤔" }
    else if regexRepeatedChar stripped_message then
      { is_valid := false, issue_type := some "repeated_characters",
        message := "I didn't quite understand that. Could you please rephrase your question about insurance? 😅" }
    else if regexOnlySymbols stripped_message then
      { is_valid := false, issue_type := some "only_symbols",
        message := "I see some symbols there! Could you please type your insurance question in words? 💬" }
    else if 1000 < user_message.length then
      { is_valid := false, issue_type := some "too_long",
        message := "That's quite a long message! Could you please summarize your insurance question in a shorter message? 📝" }
    else
      { is_valid := true, issue_type := none, message := "Input is valid" }

/-! ## src/agents/fallback_system.py -/

/-- The `escalation_triggers["high_error_count"]` threshold. -/
def high_error_count : Nat := 5

/-- The `escalation_triggers["repeated_failures"]` threshold. -/
def repeated_failures : Nat := 3

/-- The `fallback_responses` catalog (`FallbackManager.__init__`), keyed by
error category. -/
def fallback_responses : List (String × List String) :=
  [("general_error",
    ["Oops! Something went wrong on my end. 😅 Could you please try again?",
     "I'm having a small technical hiccup. Please send your message again! 🔧",
     "Sorry about that! There was a brief issue. Could you resend your question? 💻"]),
   ("input_validation_error",
    ["I didn't quite catch that! 😅 Could you please rephrase your question?",
     "Hmm, I'm not sure I understand. Could you tell me what you're looking for? 🤔",
     "Sorry, I couldn't understand that message. How can I help you today? 💬"]),
   ("agent_error",
    ["I'm having trouble processing that right now. 😅 Could you try rephrasing your question?",
     "Let me try to help differently. What specific insurance information do you need? 🤝",
     "I want to make sure I give you the right help. Could you tell me more about what you're looking for? 📋"]),
   ("timeout_error",
    ["Sorry for the delay! 🕐 I'm still here to help. What can I do for you?",
     "I'm back! 😊 How can I assist you with your insurance needs?",
     "Thanks for your patience! What insurance question can I help you with? 🌟"]),
   ("too_many_errors",
    ["I'm having some technical difficulties today. 😔 For immediate assistance, please contact our support team at support@hlas.com.sg or call +65 6227 7888.",
     "I apologize for the repeated issues. 🙏 Our human agents can help you right away at support@hlas.com.sg or +65 6227 7888.",
     "Let me connect you with our support team for better assistance. 📞 Please contact support@hlas.com.sg or call +65 6227 7888."]),
   ("off_topic",
    ["I specialize in helping with insurance questions! 😊 What can I help you with regarding Travel or Maid insurance?",
     "I'm here to assist with your insurance needs. How can I help with Travel or Maid insurance today? 🛡️",
     "Let's talk insurance! I can help you with Travel or Maid insurance. What would you like to know? ✈️🏠"]),
   ("product_not_available",
    ["I currently specialize in Travel and Maid insurance! 🌟 Which of these would be helpful for you?",
     "Right now I can help with Travel and Maid insurance. 😊 Are either of these what you're looking for?",
     "I'm an expert in Travel and Maid insurance! ✈️🏠 Would you like to know more about either of these?"])]

/-- `FallbackManager.should_escalate(session_id, error_type)`: the session's
`conversation_context.error_count` against the two triggers. -/
def should_escalate (session : SessionDoc) (error_type : String) : Bool :=
  if high_error_count ≤ session.context.error_count then true
  else if error_type = "agent_error" && repeated_failures ≤ session.context.error_count then true
  else false

/-- The `get_escalation_response` pool. -/
def escalation_responses : List String :=
  ["I'd like to connect you with our specialist team for better assistance. 👥 Please contact support@hlas.com.sg or call +65 6227 7888.",
   "Let me get you in touch with our expert team! 🌟 Please reach out to support@hlas.com.sg or call +65 6227 7888.",
   "Our human specialists can provide you with personalized help. 😊 Contact support@hlas.com.sg or call +65 6227 7888."]

/-- `random.choice(pool)`, with the random draw an explicit index. -/
def randomChoice (pool : List String) (r : Nat) : String :=
  pool.getD (r % pool.length) ""

/-- `FallbackManager.get_fallback_response(error_type, session_id)`: an
escalation message when `should_escalate` fires, otherwise a random pick
from the category's pool (`general_error` when the category is unknown).
The error-count increment is a session side effect not returned here. -/
def get_fallback_response (error_type : String) (session : SessionDoc) (r : Nat) : String :=
  if should_escalate session error_type then
    randomChoice escalation_responses r
  else
    randomChoice (agetD fallback_responses error_type
      (agetD fallback_responses "general_error" [])) r

/-- The `agent_fallbacks` catalog of `handle_agent_failure`. -/
def agent_fallbacks : List (String × List String) :=
  [("travel_agent",
    ["I'm having trouble with travel insurance right now. 😅 Could you try asking about general coverage or contact our support team?",
     "Let me help differently with travel insurance! ✈️ What specific travel coverage question do you have?",
     "I want to ensure you get the right travel insurance info. 🌟 Could you rephrase your question?"]),
   ("maid_agent",
    ["I'm experiencing issues with maid insurance processing. 😅 Could you try rephrasing your question?",
     "Let me help with maid insurance in a different way! 🏠 What specific coverage do you need to know about?",
     "I want to give you accurate maid insurance information. 💙 Could you ask your question differently?"]),
   ("payment_agent",
    ["I'm having trouble with the payment system. 😅 Please try again or contact our support team for immediate assistance.",
     "Let me help with payment processing! 💳 Could you provide your information again?",
     "I want to ensure your payment goes through smoothly. 🛡️ Please try submitting your details once more."])]

/-- `FallbackManager.handle_agent_failure(session_id, agent_type, error)`:
records the error in conversation context (a session side effect) and
returns a random message from the agent-specific pool, falling back to the
`agent_error` pool for unknown agent types. -/
def handle_agent_failure (agent_type : String) (r : Nat) : String :=
  randomChoice (agetD agent_fallbacks agent_type
    (agetD fallback_responses "agent_error" [])) r

/-! ## src/agents/conversation_flow_manager.py -/

/-- The parsed flow decision `{decision, confidence, reason}` returned by
`analyze_conversation_flow` (the reason string plays no further role). -/
structure FlowAnalysis where
  decision : String
  confidence : ℚ
deriving Repr, DecidableEq

/-- `ConversationFlowManager.should_continue_conversation`, given the flow
analysis for the message: confidence at least 0.8 trusts the decision
literally; between 0.5 and 0.8 also treats `clarify` as continuation;
below 0.5 it ignores the decision and continues exactly when the session
has a `primary_product` that is set and not `UNKNOWN`
(`bool(current_agent and current_agent != "UNKNOWN")`). -/
def should_continue_conversation (analysis : FlowAnalysis) (session : SessionDoc) : Bool :=
  if (0.8 : ℚ) ≤ analysis.confidence then
    analysis.decision = "continue"
  else if (0.5 : ℚ) ≤ analysis.confidence then
    analysis.decision = "continue" || analysis.decision = "clarify"
  else
    match session.context.primary_product with
    | none => false
    | some p => p ≠ Product.UNKNOWN

/-! ## src/agents/recommendation_agent.py -/

/-- The structured output the recommendation LLM call returns (class
`RecommendedPlan`). -/
structure RecommendedPlan where
  plan : String
  user_has_specific_requirements : Bool
  confidence : ℚ
  recommendation_reason : String
  next_step_prompt : String
deriving Repr, DecidableEq

/-- `response.model_dump()` of a `RecommendedPlan`, with non-string field
values rendered as strings. -/
def RecommendedPlan.model_dump (p : RecommendedPlan) : PyDict :=
  [("plan", p.plan),
   ("user_has_specific_requirements", if p.user_has_specific_requirements then "True" else "False"),
   ("confidence", toString p.confidence),
   ("recommendation_reason", p.recommendation_reason),
   ("next_step_prompt", p.next_step_prompt)]

/-- `RecommendationAgent.recommend_plan(session_id, product)` (lines
19-88). The `product` argument is read only by log statements. The tier is
chosen by the budget-preference rule before the LLM call; on LLM success
the pre-determined plan overwrites the model's `plan` field, on failure a
two-key fallback dict carries the same pre-determined plan. The LLM call
is the oracle `o`. -/
def recommend_plan (session : SessionDoc) (product : String)
    (o : Except String RecommendedPlan) : PyDict :=
  match alookup session.collected_info "travel_info" with
  | none =>
      [("plan", "not available"),
       ("reason", "No user information available for recommendation")]
  | some travel_info =>
      let budget_preference := pyLower (agetD travel_info "budget_preference" "")
      let recommended_plan :=
        if budget_preference = "budget-friendly" then "Silver"
        else if budget_preference = "comprehensive" then "Gold"
        else "Silver"
      match o with
      | .ok response => aset response.model_dump "plan" recommended_plan
      | .error e => [("plan", recommended_plan), ("reason", "LLM call failed: " ++ e)]

/-! ## src/agents/payment_agent.py -/

/-- The structured payment-stage analysis (class `PaymentStage`), as it
stands after the confidence clamp and the regex name/email fallbacks —
those steps only rewrite fields of this record, so quantifying over all
its values covers them; no dispatch branch reads `confidence`. -/
structure PaymentStageAnalysis where
  stage : String
  user_intent : String
  extracted_name : Option String
  extracted_email : Option String
  confidence : ℚ
  response : String
deriving Repr, DecidableEq

/-- `validate_email(email)`: decides the anchored regex
`^[a-zA-Z0-9._%+-]+@[a-zA-Z0-9.-]+\.[a-zA-Z]{2,}$` — one `@`, a non-empty
local part over its class, and a domain whose text before the final dot is
non-empty over `[a-zA-Z0-9.-]` and whose final label is two or more
letters. -/
def validate_email (email : String) : Bool :=
  match email.splitOn "@" with
  | [lp, dom] =>
      let dparts := dom.splitOn "."
      lp ≠ "" &&
      lp.toList.all (fun c => c.isAlphanum || c = '.' || c = '_' || c = '%' || c = '+' || c = '-') &&
      2 ≤ dparts.length &&
      (match dparts.getLast? with
       | some tld => 2 ≤ tld.length && tld.toList.all Char.isAlpha
       | none => false) &&
      dparts.dropLast ≠ [""] &&
      (dparts.dropLast.all fun p => p.toList.all fun c => c.isAlphanum || c = '-')
  | _ => false

/-- `validate_name(name)`: at least two characters after stripping, and
every whitespace-separated part is alphabetic once spaces, hyphens and
apostrophes are removed (an empty remainder fails `str.isalpha`). -/
def validate_name (name : String) : Bool :=
  2 ≤ (pyStrip name).length &&
  (pySplit (pyStrip name)).all fun part =>
    pyIsAlphaStr ⟨part.toList.filter fun c => c ≠ ' ' && c ≠ '-' && c ≠ '\''⟩

/-- What a payment-agent turn produces: the returned dict, and the
`payment_info` map persisted by `set_collected_info` when that call is
reached (the early returns never persist). -/
structure PaymentOutcome where
  result : PyDict
  persisted_payment_info : Option PyDict
deriving Repr, DecidableEq

/-- The cancel acknowledgement of payment_agent.py line 232. -/
def cancelAckMsg : String :=
  "No problem! If you change your mind about purchasing insurance, just let me know. I'm here to help! 😊"

/-- `process_payment(session_id, payment_info, product, plan_name)`: builds
the deterministic handoff link and the confirmation text; a missing name
or email raises `KeyError`, caught by the function's own handler. -/
def process_payment (session_id : String) (payment_info : PyDict)
    (product plan_name : String) : PyDict :=
  match alookup payment_info "name", alookup payment_info "email" with
  | some name, some email =>
      let payment_link :=
        "https://hlas-payment.com/pay/" ++ session_id ++ "?plan=" ++ plan_name
          ++ "&product=" ++ product
      [("output",
        "*Payment Details Confirmed*\n\nCustomer: *" ++ name ++ "*\nEmail: *" ++ email
          ++ "*\nProduct: *" ++ product ++ " Insurance*\nPlan: *" ++ plan_name
          ++ "*\n\nPolicy details sent to: " ++ email
          ++ "\n\n*Complete payment:*\n" ++ payment_link
          ++ "\n\nPolicy activates after payment confirmation.\n\nNeed help? Contact support anytime."),
       ("stage", "completed"),
       ("payment_link", payment_link)]
  | _, _ =>
      [("output", "There was an issue processing your payment. Please contact our support team for assistance."),
       ("stage", "error")]

/-- The end of the `collecting_details` branch (payment_agent.py lines
201-218): persist the updated `payment_info` via `set_collected_info`,
then ask for whichever of name/email is missing, or finish with
`process_payment`. -/
def collecting_details_finish (payment_info : PyDict)
    (session_id product_name recommended_plan : String) : PaymentOutcome :=
  if !acontains payment_info "name" then
    { result := [("output", "Please provide your full name:"), ("stage", "collecting_details")],
      persisted_payment_info := some payment_info }
  else if !acontains payment_info "email" then
    { result := [("output", "Thank you, *" ++ agetD payment_info "name" "" ++ "*\n\nNow provide your email address:"),
                 ("stage", "collecting_details")],
      persisted_payment_info := some payment_info }
  else
    { result := process_payment session_id payment_info product_name recommended_plan,
      persisted_payment_info := some payment_info }

/-- The email step of the `collecting_details` branch (payment_agent.py
lines 191-199): validate and store a newly extracted email, rejecting an
invalid one, before falling through to `collecting_details_finish`. -/
def collecting_details_email_step (payment_info : PyDict)
    (result : PaymentStageAnalysis)
    (session_id product_name recommended_plan : String) : PaymentOutcome :=
  match result.extracted_email with
  | some em =>
      if validate_email em then
        collecting_details_finish (aset payment_info "email" (pyStrip (pyLower em)))
          session_id product_name recommended_plan
      else
        { result := [("output", "*Invalid email format*\n\nExample: john.smith@email.com"),
                     ("stage", "collecting_details")],
          persisted_payment_info := none }
  | none => collecting_details_finish payment_info session_id product_name recommended_plan

/-- `run_payment_agent(user_message, chat_history, session_id)`
(payment_agent.py lines 56-248). The structured LLM analysis (with its
regex fallbacks) is the oracle `analysis`; `.error` is the inner
`except` path of lines 157-162. Dispatch mirrors the source's
`if`/`elif` chain: the three stage branches are tested before the
`cancel` intent. -/
def run_payment_agent (session : SessionDoc) (session_id : String)
    (analysis : Except Unit PaymentStageAnalysis) : PaymentOutcome :=
  let recommended_plan := session.context.recommended_plan.getD "Standard"
  match session.context.primary_product with
  | none =>
      { result := [("output", "I need to know which insurance product you're interested in purchasing. Please let me know if it's Travel or Maid insurance."),
                   ("stage", "error")],
        persisted_payment_info := none }
  | some pp =>
      let product_name := pp.value
      let payment_info := (alookup session.collected_info "payment_info").getD []
      match analysis with
      | .error _ =>
          { result := [("output", "I'm having trouble processing your payment request. Please try again or contact support."),
                       ("stage", "error")],
            persisted_payment_info := none }
      | .ok result =>
          if result.stage = "plan_confirmation" then
            if result.user_intent = "confirm_plan" then
              { result := [("output", "*" ++ recommended_plan ++ " " ++ product_name
                  ++ " Insurance* - Confirmed\n\nRequired details:\n• Full name\n• Email address\n\nPlease provide your full name first."),
                           ("stage", "collecting_details")],
                persisted_payment_info := none }
            else
              { result := [("output", "*" ++ product_name
                  ++ " Insurance Purchase*\n\nRecommended: *" ++ recommended_plan
                  ++ " Plan*\n\nConfirm purchase?\n• Type 'yes' to proceed\n• Type 'no' to cancel"),
                           ("stage", "plan_confirmation")],
                persisted_payment_info := none }
          else if result.stage = "collecting_details" then
            match result.extracted_name with
            | some nm =>
                if validate_name nm then
                  collecting_details_email_step (aset payment_info "name" (pyStrip nm))
                    result session_id product_name recommended_plan
                else
                  { result := [("output", "*Invalid name format*\n\nRequired:\n• At least 2 characters\n• Letters only\n\nExample: John Smith"),
                               ("stage", "collecting_details")],
                    persisted_payment_info := none }
            | none =>
                collecting_details_email_step payment_info result
                  session_id product_name recommended_plan
          else if result.stage = "processing_payment" then
            if acontains payment_info "name" && acontains payment_info "email" then
              { result := process_payment session_id payment_info product_name recommended_plan,
                persisted_payment_info := none }
            else
              { result := [("output", "I need your name and email address to process the payment. Please provide them."),
                           ("stage", "collecting_details")],
                persisted_payment_info := none }
          else if result.user_intent = "cancel" then
            { result := [("output", cancelAckMsg), ("stage", "cancelled")],
              persisted_payment_info := none }
          else
            { result := [("output", result.response), ("stage", result.stage)],
              persisted_payment_info := none }

/-! ## src/agents/intelligent_orchestrator.py -/

/-- The Python call `run_payment_agent(user_message, chat_history)` at
intelligent_orchestrator.py line 620. The callee's signature
(payment_agent.py line 56) requires the third positional argument
`session_id`, so in Python this call raises `TypeError` before the
callee's body runs; the surrounding `except Exception` (line 625)
receives it. -/
def run_payment_agent_two_arg_call (user_message : String)
    (chat_history : List ChatMsg) : Except String PyDict :=
  .error "run_payment_agent() missing 1 required positional argument: 'session_id'"

/-- What a `process_normal_intent` turn produces: the returned reply and
the stage written by `set_stage` on the taken branch, if any. -/
structure NormalIntentResult where
  reply : String
  stage_set : Option String
deriving Repr, DecidableEq

/-- `process_normal_intent(intent_result, user_message, chat_history,
session_id)` (intelligent_orchestrator.py lines 603-658). The routing
table `agent_map` holds only `Product.TRAVEL` (the MAID entry is commented
out). The travel agent's LLM-driven outcome is the oracle
`travel_outcome` (`.error` = the agent raised); `r` is the random draw
for fallback pools. -/
def process_normal_intent (intent_result : Intent) (user_message : String)
    (chat_history : List ChatMsg) (session : SessionDoc) (r : Nat)
    (travel_outcome : Except String PyDict) : NormalIntentResult :=
  let product := intent_result.product
  if intent_result.intent = "payment_inquiry" then
    match run_payment_agent_two_arg_call user_message chat_history with
    | .ok response_data =>
        { reply := agetD response_data "output" "Let me help you with the payment process! 💳",
          stage_set := some "payment" }
    | .error _ =>
        { reply := handle_agent_failure "payment_agent" r, stage_set := some "payment" }
  else if product = Product.TRAVEL then
    match travel_outcome with
    | .ok response_data =>
        { reply := agetD response_data "output"
            ("I'm here to help with " ++ pyLower product.value ++ " insurance! 😊 What specific information do you need?"),
          stage_set := some (pyLower product.value ++ "_inquiry") }
    | .error _ =>
        { reply := handle_agent_failure (pyLower product.value ++ "_agent") r,
          stage_set := some (pyLower product.value ++ "_inquiry") }
  else
    { reply := get_fallback_response "product_not_available" session r, stage_set := none }

/-- The orchestrator's payment-stage guard
`if response_data.get("requires_context_switch"):` (line 280): the looked
up value must exist and be truthy for the context-switch reset to run. -/
def requires_context_switch_signaled (response_data : PyDict) : Bool :=
  match alookup response_data "requires_context_switch" with
  | some v => v ≠ ""
  | none => false

/-! ## src/Admin/embedding_agent.py -/

/-- One ingestion object of `embed_product`: the five scalar properties
written for each surviving chunk. -/
structure IngestObject where
  content : String
  questions : List String
  product_name : String
  doc_type : String
  source_file : String
deriving Repr, DecidableEq

/-- One source file of `files_to_process`, already chunked by its chunker
(the chunkers only read files and split text). -/
structure FileChunks where
  doc_type : String
  source_file : String
  chunks : List String
deriving Repr, DecidableEq

/-- The per-file chunk loop of `embed_product` (lines 291-311): a chunk
that is empty or whitespace-only after stripping is skipped (`continue`,
counted by `empty_chunks_count`); every other chunk gets hypothetical
questions (`qgen`, the LLM oracle) and becomes an ingestion object. -/
def embed_product_chunk_loop (product_name doc_type source_file : String)
    (qgen : String → List String) : List String → List IngestObject
  | [] => []
  | chunk :: rest =>
      if pyStrip chunk = "" then
        embed_product_chunk_loop product_name doc_type source_file qgen rest
      else
        { content := chunk, questions := qgen chunk, product_name := product_name,
          doc_type := doc_type, source_file := source_file }
          :: embed_product_chunk_loop product_name doc_type source_file qgen rest

/-- The `empty_chunks_count` accumulated by the loop for one file. -/
def empty_chunks_count : List String → Nat
  | [] => 0
  | chunk :: rest =>
      (if pyStrip chunk = "" then 1 else 0) + empty_chunks_count rest

/-- `all_objects` as accumulated over `files_to_process`. -/
def embed_product_all_objects (product_name : String)
    (qgen : String → List String) (files : List FileChunks) : List IngestObject :=
  files.flatMap fun f =>
    embed_product_chunk_loop product_name f.doc_type f.source_file qgen f.chunks

/-- The second filter before ingestion (line 329):
`obj.get('content') and obj.get('content').strip()`. -/
def embed_product_valid_objects (objs : List IngestObject) : List IngestObject :=
  objs.filter fun o => o.content ≠ "" && pyStrip o.content ≠ ""

/-- One `batch.add_object` call: properties plus the named vectors it was
stored with (none when the embedding call failed and the fallback write
without vectors ran). -/
structure BatchAdd where
  properties : IngestObject
  vector_names : List String
deriving Repr, DecidableEq

/-- The batched write loop (lines 343-378): an object with non-empty
content is embedded (`content_vector` always, `questions_vector` only for
non-empty joined question text) and added; a per-object embedding failure
(`embed_fail i`) adds the object without vectors; empty content is
skipped. -/
def embed_product_batch (embed_fail : Nat → Bool) : Nat → List IngestObject → List BatchAdd
  | _, [] => []
  | i, item :: rest =>
      if item.content ≠ "" then
        (if embed_fail i then
          { properties := item, vector_names := [] }
        else
          { properties := item,
            vector_names :=
              if pyStrip (String.intercalate " " item.questions) ≠ "" then
                ["content_vector", "questions_vector"]
              else
                ["content_vector"] })
          :: embed_product_batch embed_fail (i + 1) rest
      else
        embed_product_batch embed_fail (i + 1) rest

/-- The full pipeline from chunked files to the objects submitted to the
vector store's batch write. -/
def embed_product_submitted (product_name : String) (qgen : String → List String)
    (files : List FileChunks) (embed_fail : Nat → Bool) : List BatchAdd :=
  embed_product_batch embed_fail 0
    (embed_product_valid_objects (embed_product_all_objects product_name qgen files))

/-! ## Concrete inputs for the witnesses and counterexamples -/

/-- A fresh session after eleven `update_session` calls. -/
def sessionAfterElevenUpdates : SessionDoc :=
  (List.range 11).foldl (fun d i => update_session d "hi" "hello" i) freshSession

/-- A session whose error count stands at 4. -/
def sessionErrFour : SessionDoc :=
  { freshSession with context := { freshSession.context with error_count := 4 } }

/-- A session mid-payment: Travel product, Gold plan recommended. -/
def paymentSessionGold : SessionDoc :=
  { freshSession with
    context := { primary_product := some Product.TRAVEL,
                 recommended_plan := some "Gold", error_count := 0 } }

/-- A classification outcome that reports the `plan_confirmation` stage
with the `cancel` intent. -/
def cancelAtPlanConfirmation : PaymentStageAnalysis :=
  { stage := "plan_confirmation", user_intent := "cancel", extracted_name := none,
    extracted_email := none, confidence := 0.9, response := "Okay." }

/-- A classification outcome that reports the `completed` stage with the
`cancel` intent. -/
def cancelAtCompleted : PaymentStageAnalysis :=
  { stage := "completed", user_intent := "cancel", extracted_name := none,
    extracted_email := none, confidence := 0.9, response := "Okay." }

/-- A session whose travel info stores the mixed-case value
`"Comprehensive"`. -/
def sessionComprehensiveCased : SessionDoc :=
  { freshSession with
    collected_info := [("travel_info", [("budget_preference", "Comprehensive")])] }

/-- A session whose travel info stores `"budget-friendly"`. -/
def sessionBudgetFriendly : SessionDoc :=
  { freshSession with
    collected_info := [("travel_info", [("budget_preference", "budget-friendly")])] }

/-- A recommendation-LLM outcome that (wrongly) proposes Platinum. -/
def llmPlatinumPlan : RecommendedPlan :=
  { plan := "Platinum", user_has_specific_requirements := false, confidence := 1,
    recommendation_reason := "r", next_step_prompt := "n" }

/-- An intent classification reading `payment_inquiry`. -/
def paymentInquiryIntent : Intent :=
  { product := Product.UNKNOWN, intent := "payment_inquiry", confidence := 0.9,
    requires_clarification := false }

/-- Two chunked source files, one holding an all-whitespace chunk. -/
def sampleFiles : List FileChunks :=
  [{ doc_type := "benefits", source_file := "Travel_benefits.txt",
     chunks := ["Medical expenses are covered.", "   ", "Trip cancellation benefit."] },
   { doc_type := "faq", source_file := "Travel_FAQs.txt",
     chunks := ["", "Q: Am I covered overseas? A: Yes."] }]

/-! # Theorems -/

/-- Helper: `aset` stores the value its key then reports. -/
theorem alookup_aset {α : Type} (d : List (String × α)) (k : String) (v : α) :
    alookup (aset d k v) k = some v := by
  induction d with
  | nil => simp [aset, alookup]
  | cons hd tl ih =>
      by_cases h : hd.1 = k <;>
        · cases hd
          simp_all [aset, alookup]

/-- Helper: a key outside a dict's key list looks up to `none`. -/
theorem alookup_eq_none_of_not_mem {α : Type} (d : List (String × α)) (k : String)
    (h : k ∉ d.map Prod.fst) : alookup d k = none := by
  induction d with
  | nil => rfl
  | cons hd tl ih =>
      cases hd with
      | mk k2 v =>
          simp only [List.map_cons, List.mem_cons, not_or] at h
          have hne : k2 ≠ k := fun e => h.1 e.symm
          simp [alookup, hne, ih h.2]

/-- C2 (amended): `update_session` appends the user/assistant pair with
the call's timestamp on both entries and increments `message_count`, but
does not trim the stored array; the most-recent-10-pairs (20 entries)
window is applied by `get_chat_history`'s read projection, whose result
is always a suffix of the stored history of length at most 20. -/
theorem update_session_appends_and_read_is_trimmed (doc : SessionDoc)
    (u a : String) (now : Nat) :
    (update_session doc u a now).chat_history =
      doc.chat_history ++
        [{ role := "user", content := u, timestamp := now },
         { role := "assistant", content := a, timestamp := now }] ∧
    (update_session doc u a now).message_count = doc.message_count + 1 ∧
    (get_chat_history doc).length ≤ 2 * MAX_CONTEXT_MESSAGES ∧
    get_chat_history doc <:+ doc.chat_history := by
  refine ⟨rfl, rfl, ?_, List.drop_suffix _ _⟩
  simp only [get_chat_history, takeLast, List.length_drop, MAX_CONTEXT_MESSAGES]
  omega

/-- C2 (counterexample): after eleven `update_session` calls on a fresh
session the stored `chat_history` holds 22 entries, more than the
`MAX_CONTEXT_MESSAGES` window of 20 the claim says the call leaves
behind. -/
theorem update_session_stored_history_untrimmed_counterexample :
    sessionAfterElevenUpdates.chat_history.length = 22 ∧
    ¬ sessionAfterElevenUpdates.chat_history.length ≤ 2 * MAX_CONTEXT_MESSAGES := by
  constructor <;> decide

/-- C5: `should_escalate` returns true exactly when the session's error
count has reached 5, or the error type is `agent_error` and the count has
reached 3; in particular at count 4 it is true for `agent_error` and
false for every other error type. -/
theorem should_escalate_thresholds (session : SessionDoc) (t : String) :
    (should_escalate session t = true ↔
      5 ≤ session.context.error_count ∨
        (t = "agent_error" ∧ 3 ≤ session.context.error_count)) ∧
    (session.context.error_count = 4 →
      should_escalate session "agent_error" = true ∧
        (t ≠ "agent_error" → should_escalate session t = false)) := by
  constructor
  · simp only [should_escalate, high_error_count, repeated_failures]
    split
    · simp_all
    · split <;> simp_all
  · intro h4
    constructor
    · simp [should_escalate, high_error_count, repeated_failures, h4]
    · intro hne
      simp [should_escalate, high_error_count, repeated_failures, h4, hne]

/-- C5 witness: at error count 4, escalation fires for `agent_error` and
not for `timeout_error`. -/
theorem should_escalate_thresholds_witness :
    should_escalate sessionErrFour "agent_error" = true ∧
    should_escalate sessionErrFour "timeout_error" = false :=
  ⟨((should_escalate_thresholds sessionErrFour "timeout_error").2 rfl).1,
   ((should_escalate_thresholds sessionErrFour "timeout_error").2 rfl).2 (by decide)⟩

/-- C7: `should_continue_conversation` trusts the decision literally at
confidence at least 0.8; between 0.5 and 0.8 it also counts `clarify` as
continuation; below 0.5 it ignores the decision and continues exactly
when the session holds a primary product that is set and not UNKNOWN. -/
theorem should_continue_conversation_thresholds
    (analysis : FlowAnalysis) (session : SessionDoc) :
    ((0.8 : ℚ) ≤ analysis.confidence →
      (should_continue_conversation analysis session = true ↔
        analysis.decision = "continue")) ∧
    ((0.5 : ℚ) ≤ analysis.confidence → analysis.confidence < (0.8 : ℚ) →
      (should_continue_conversation analysis session = true ↔
        analysis.decision = "continue" ∨ analysis.decision = "clarify")) ∧
    (analysis.confidence < (0.5 : ℚ) →
      (should_continue_conversation analysis session = true ↔
        ∃ p, session.context.primary_product = some p ∧ p ≠ Product.UNKNOWN)) := by
  refine ⟨fun h8 => ?_, fun h5 h8 => ?_, fun h5 => ?_⟩
  · simp [should_continue_conversation, h8]
  · rw [should_continue_conversation, if_neg (by exact fun hc => absurd hc (not_le.mpr h8)), if_pos h5]
    simp
  · rw [should_continue_conversation,
      if_neg (by exact fun hc => absurd hc (not_le.mpr (h5.trans (by norm_num)))),
      if_neg (by exact fun hc => absurd hc (not_le.mpr h5))]
    cases hp : session.context.primary_product <;> simp [hp]

/-- C7 witness: a `clarify` decision at confidence 0.6 continues; at
confidence 0.4 with no product context it does not. -/
theorem should_continue_conversation_thresholds_witness :
    (should_continue_conversation { decision := "clarify", confidence := 0.6 } freshSession = true ↔
      ("clarify" : String) = "continue" ∨ ("clarify" : String) = "clarify") ∧
    (should_continue_conversation { decision := "continue", confidence := 0.4 } freshSession = true ↔
      ∃ p, freshSession.context.primary_product = some p ∧ p ≠ Product.UNKNOWN) :=
  ⟨(should_continue_conversation_thresholds
      { decision := "clarify", confidence := 0.6 } freshSession).2.1 (by norm_num) (by norm_num),
   (should_continue_conversation_thresholds
      { decision := "continue", confidence := 0.4 } freshSession).2.2 (by norm_num)⟩

/-- Helper (recommendation_agent.py): with `travel_info` present the
returned dict's `plan` entry is the rule-chosen tier, for every LLM
outcome. -/
theorem recommend_plan_plan_lookup (session : SessionDoc) (product : String)
    (o : Except String RecommendedPlan) (travel_info : PyDict)
    (h : alookup session.collected_info "travel_info" = some travel_info) :
    alookup (recommend_plan session product o) "plan" =
      some (if pyLower (agetD travel_info "budget_preference" "") = "budget-friendly" then
              "Silver"
            else if pyLower (agetD travel_info "budget_preference" "") = "comprehensive" then
              "Gold"
            else
              "Silver") := by
  cases o with
  | ok resp =>
      simp only [recommend_plan, h]
      exact alookup_aset _ _ _
  | error e =>
      simp only [recommend_plan, h]
      simp [alookup]

/-- C6 (amended): when the session's collected info holds `travel_info`,
the returned plan is decided case-insensitively from
`budget_preference` — `budget-friendly` gives Silver, `comprehensive`
gives Gold, anything else (after lowercasing) gives Silver — and the
returned plan equals this rule-chosen tier for every outcome `o` of the
language-model call, its failure included. -/
theorem recommend_plan_budget_rule (session : SessionDoc) (product : String)
    (o : Except String RecommendedPlan) (travel_info : PyDict)
    (h : alookup session.collected_info "travel_info" = some travel_info) :
    (pyLower (agetD travel_info "budget_preference" "") = "budget-friendly" →
      alookup (recommend_plan session product o) "plan" = some "Silver") ∧
    (pyLower (agetD travel_info "budget_preference" "") = "comprehensive" →
      alookup (recommend_plan session product o) "plan" = some "Gold") ∧
    (pyLower (agetD travel_info "budget_preference" "") ≠ "budget-friendly" →
      pyLower (agetD travel_info "budget_preference" "") ≠ "comprehensive" →
      alookup (recommend_plan session product o) "plan" = some "Silver") := by
  refine ⟨fun hb => ?_, fun hc => ?_, fun hb hc => ?_⟩ <;>
    rw [recommend_plan_plan_lookup session product o travel_info h]
  · rw [if_pos hb]
  · rw [if_neg (by simp [hc]), if_pos hc]
  · rw [if_neg hb, if_neg hc]

/-- C6 witness: a stored `budget-friendly` preference yields the Silver
plan even when the language-model call fails. -/
theorem recommend_plan_budget_rule_witness :
    alookup (recommend_plan sessionBudgetFriendly "TRAVEL" (.error "boom")) "plan" =
      some "Silver" :=
  (recommend_plan_budget_rule sessionBudgetFriendly "TRAVEL" (.error "boom")
    [("budget_preference", "budget-friendly")] rfl).1 rfl

/-- C6 (counterexample): with the stored value `"Comprehensive"` — which
is neither of the claim's quoted values, so the claim requires Silver —
the code lowercases before comparing and returns Gold. -/
theorem recommend_plan_budget_rule_counterexample :
    agetD [("budget_preference", "Comprehensive")] "budget_preference" "" = "Comprehensive" ∧
    (("Comprehensive" : String) ≠ "budget-friendly" ∧
      ("Comprehensive" : String) ≠ "comprehensive") ∧
    alookup (recommend_plan sessionComprehensiveCased "TRAVEL" (.ok llmPlatinumPlan)) "plan" =
      some "Gold" := by
  refine ⟨rfl, ⟨by decide, by decide⟩, by decide⟩

/-- C10: `recommend_plan` ignores its product argument — its result is
the same for every two products; a session without a `travel_info`
entry gets the `not available` plan whatever the product (MAID
included); with `travel_info` present the tier comes from the
budget-preference rule alone and is always one of the Travel tier names
Silver and Gold. There is no per-product tier-selection path. -/
theorem recommend_plan_ignores_product (session : SessionDoc)
    (o : Except String RecommendedPlan) (p q : String) :
    recommend_plan session p o = recommend_plan session q o ∧
    (alookup session.collected_info "travel_info" = none →
      alookup (recommend_plan session p o) "plan" = some "not available") ∧
    (∀ travel_info, alookup session.collected_info "travel_info" = some travel_info →
      alookup (recommend_plan session p o) "plan" = some "Silver" ∨
      alookup (recommend_plan session p o) "plan" = some "Gold") := by
  refine ⟨rfl, fun hnone => ?_, fun travel_info h => ?_⟩
  · rw [recommend_plan, hnone]
    rfl
  · rw [recommend_plan_plan_lookup session p o travel_info h]
    split
    · exact Or.inl rfl
    · split
      · exact Or.inr rfl
      · exact Or.inl rfl

/-- C10 witness: with no `travel_info` collected, the MAID product gets
the `not available` plan, and the result equals the TRAVEL result. -/
theorem recommend_plan_ignores_product_witness :
    recommend_plan freshSession "MAID" (.error "x") =
      recommend_plan freshSession "TRAVEL" (.error "x") ∧
    alookup (recommend_plan freshSession "MAID" (.error "x")) "plan" =
      some "not available" :=
  ⟨(recommend_plan_ignores_product freshSession (.error "x") "MAID" "TRAVEL").1,
   (recommend_plan_ignores_product freshSession (.error "x") "MAID" "TRAVEL").2.1 rfl⟩

/-- C4 (amended): `validate_user_input` classifies, in order: empty or
whitespace-only as `empty_input`; a stripped length below 2 that is
neither a bare digit nor one of y, n, 1-5 (case-insensitive) as
`too_short`; a single non-newline character repeated into a run of at
least 11 (ten or more repetitions after the first) as
`repeated_characters`; only non-word non-space characters as
`only_symbols`; more than 1000 characters as `too_long`; and everything
else as valid. -/
theorem validate_user_input_classification (msg : String) :
    (pyStrip msg = "" →
      (validate_user_input msg).is_valid = false ∧
      (validate_user_input msg).issue_type = some "empty_input") ∧
    (pyStrip msg ≠ "" → (pyStrip msg).length < 2 →
      pyIsDigitStr (pyStrip msg) = false →
      shortAllowList.contains (pyLower (pyStrip msg)) = false →
      (validate_user_input msg).is_valid = false ∧
      (validate_user_input msg).issue_type = some "too_short") ∧
    (∀ c : Char, c ≠ '\n' → 11 ≤ (pyStrip msg).length →
      ((pyStrip msg).toList.all fun d => d = c) = true →
      (validate_user_input msg).is_valid = false ∧
      (validate_user_input msg).issue_type = some "repeated_characters") ∧
    (2 ≤ (pyStrip msg).length →
      ((pyStrip msg).toList.all fun c => !pyIsWordChar c && !pyIsSpace c) = true →
      regexRepeatedChar (pyStrip msg) = false →
      (validate_user_input msg).is_valid = false ∧
      (validate_user_input msg).issue_type = some "only_symbols") ∧
    (pyStrip msg ≠ "" →
      ¬((pyStrip msg).length < 2 ∧ pyIsDigitStr (pyStrip msg) = false ∧
          shortAllowList.contains (pyLower (pyStrip msg)) = false) →
      regexRepeatedChar (pyStrip msg) = false →
      regexOnlySymbols (pyStrip msg) = false →
      1000 < msg.length →
      (validate_user_input msg).is_valid = false ∧
      (validate_user_input msg).issue_type = some "too_long") ∧
    (pyStrip msg ≠ "" →
      ¬((pyStrip msg).length < 2 ∧ pyIsDigitStr (pyStrip msg) = false ∧
          shortAllowList.contains (pyLower (pyStrip msg)) = false) →
      regexRepeatedChar (pyStrip msg) = false →
      regexOnlySymbols (pyStrip msg) = false →
      msg.length ≤ 1000 →
      (validate_user_input msg).is_valid = true ∧
      (validate_user_input msg).issue_type = none) := by
  refine ⟨fun he => ?_, fun hne hlt hd hy => ?_, fun c hcn hlen hall => ?_,
    fun hlen hsym hrep => ?_, fun hne hshort hrep hsym hlong => ?_,
    fun hne hshort hrep hsym hshortmsg => ?_⟩
  · simp [validate_user_input, he]
  · have hmne : msg ≠ "" := fun e => hne (by rw [e]; rfl)
    have hy' : pyLower (pyStrip msg) ∉ shortAllowList := by simpa using hy
    simp [validate_user_input, hmne, hne, hlt, hd, hy']
  · have hne : pyStrip msg ≠ "" := by
      intro he
      rw [he] at hlen
      exact absurd hlen (by decide)
    have hmne : msg ≠ "" := fun e => hne (by rw [e]; rfl)
    have htl : (pyStrip msg).toList.length = (pyStrip msg).length := rfl
    have hrep : regexRepeatedChar (pyStrip msg) = true := by
      rcases hl : (pyStrip msg).toList with _ | ⟨c0, rest⟩
      · rw [hl] at htl
        exfalso
        simp at htl
        omega
      · have hc0 : c0 = c ∧ rest.all (fun d => d = c) = true := by
          have := hall
          rw [hl] at this
          simpa using this
        have hlc : (pyStrip msg).length = rest.length + 1 := by
          rw [← htl, hl]
          simp
        rcases hc0 with ⟨h1, h2⟩
        subst h1
        have h10 : 10 ≤ rest.length := by omega
        simp only [regexRepeatedChar, hl]
        simp [hcn, h10]
        simpa using h2
    have hnotshort : ¬((pyStrip msg).length < 2) := by omega
    simp [validate_user_input, hmne, hne, hnotshort, hrep]
  · have hne : pyStrip msg ≠ "" := by
      intro he
      rw [he] at hlen
      exact absurd hlen (by decide)
    have hmne : msg ≠ "" := fun e => hne (by rw [e]; rfl)
    have hnotshort : ¬((pyStrip msg).length < 2) := by omega
    have hsym' : ∀ x ∈ (pyStrip msg).data, pyIsWordChar x = false ∧ pyIsSpace x = false := by
      simpa using hsym
    have hsymtrue : regexOnlySymbols (pyStrip msg) = true := by
      simp [regexOnlySymbols, hne]
      exact hsym'
    simp [validate_user_input, hmne, hne, hnotshort, hrep, hsymtrue]
  · have hmne : msg ≠ "" := fun e => hne (by rw [e]; rfl)
    have hcond2 : ¬((pyStrip msg).length < 2 ∧
        ¬(pyIsDigitStr (pyStrip msg) = true ∨ pyLower (pyStrip msg) ∈ shortAllowList)) := by
      rintro ⟨hl2, hcon⟩
      push_neg at hcon
      exact hshort ⟨hl2, by simpa using hcon.1, by simpa using hcon.2⟩
    simp only [validate_user_input]
    rw [if_neg (by simp [hmne, hne]),
      if_neg (by simpa using hcond2),
      if_neg (by simp [hrep]), if_neg (by simp [hsym]), if_pos hlong]
    exact ⟨rfl, rfl⟩
  · have hmne : msg ≠ "" := fun e => hne (by rw [e]; rfl)
    have hcond2 : ¬((pyStrip msg).length < 2 ∧
        ¬(pyIsDigitStr (pyStrip msg) = true ∨ pyLower (pyStrip msg) ∈ shortAllowList)) := by
      rintro ⟨hl2, hcon⟩
      push_neg at hcon
      exact hshort ⟨hl2, by simpa using hcon.1, by simpa using hcon.2⟩
    simp only [validate_user_input]
    rw [if_neg (by simp [hmne, hne]),
      if_neg (by simpa using hcond2),
      if_neg (by simp [hrep]), if_neg (by simp [hsym]), if_neg (by omega)]
    exact ⟨rfl, rfl⟩

/-- C4 witness: "!!" (two symbols, not a repeated run of 11) is flagged
`only_symbols`. -/
theorem validate_user_input_classification_witness :
    (validate_user_input "!!").is_valid = false ∧
    (validate_user_input "!!").issue_type = some "only_symbols" :=
  (validate_user_input_classification "!!").2.2.2.1 (by decide) (by decide) (by decide)

/-- C4 (counterexample): ten copies of a single character — which the
claim's "repeated 10+ times" rule labels `repeated_characters` — pass
validation, because the regex `^(.)\1{10,}$` needs the character plus at
least ten repetitions, eleven copies in all. -/
theorem validate_user_input_ten_repeats_counterexample :
    (pyStrip "aaaaaaaaaa").length = 10 ∧
    ((pyStrip "aaaaaaaaaa").toList.all fun d => d = 'a') = true ∧
    validate_user_input "aaaaaaaaaa" =
      { is_valid := true, issue_type := none, message := "Input is valid" } := by
  refine ⟨by decide, by decide, by decide⟩

/-- C3 (amended): the `cancel` acknowledgement (stage `cancelled`) is
returned only after the three stage branches have failed to match — the
classified stage must be none of `plan_confirmation`,
`collecting_details`, `processing_payment` (so, of the classifier's four
stage values, only `completed`); in those cases, for any session with a
product in context, the polite no-op acknowledgement is returned. -/
theorem run_payment_agent_cancel_needs_unhandled_stage (session : SessionDoc)
    (session_id : String) (a : PaymentStageAnalysis) (p : Product)
    (hp : session.context.primary_product = some p)
    (hc : a.user_intent = "cancel")
    (h1 : a.stage ≠ "plan_confirmation")
    (h2 : a.stage ≠ "collecting_details")
    (h3 : a.stage ≠ "processing_payment") :
    (run_payment_agent session session_id (.ok a)).result =
      [("output", cancelAckMsg), ("stage", "cancelled")] := by
  simp [run_payment_agent, hp, hc, h1, h2, h3]

/-- C3 witness: a `cancel` intent classified at stage `completed` gets the
acknowledgement. -/
theorem run_payment_agent_cancel_needs_unhandled_stage_witness :
    (run_payment_agent paymentSessionGold "s1" (.ok cancelAtCompleted)).result =
      [("output", cancelAckMsg), ("stage", "cancelled")] :=
  run_payment_agent_cancel_needs_unhandled_stage paymentSessionGold "s1"
    cancelAtCompleted Product.TRAVEL rfl rfl (by decide) (by decide) (by decide)

/-- C3 (counterexample): a `cancel` intent classified at stage
`plan_confirmation` — one of the stages the claim says is irrelevant —
does not get the acknowledgement: the stage branch wins and the agent
re-asks for plan confirmation. -/
theorem run_payment_agent_cancel_ignored_counterexample :
    cancelAtPlanConfirmation.user_intent = "cancel" ∧
    alookup (run_payment_agent paymentSessionGold "s1"
        (.ok cancelAtPlanConfirmation)).result "stage" = some "plan_confirmation" ∧
    alookup (run_payment_agent paymentSessionGold "s1"
        (.ok cancelAtPlanConfirmation)).result "stage" ≠ some "cancelled" ∧
    alookup (run_payment_agent paymentSessionGold "s1"
        (.ok cancelAtPlanConfirmation)).result "output" ≠ some cancelAckMsg := by
  refine ⟨rfl, by decide, by decide, by decide⟩

/-- C1: `process_normal_intent` on a `payment_inquiry` classification does
set the stage to `payment`, but its reply is never the payment agent's
output: the call at intelligent_orchestrator.py line 620 passes two
arguments to the three-parameter `run_payment_agent`, so it raises
`TypeError` and the handler returns the payment-agent failure fallback
(one of the three fixed `payment_agent` pool messages) instead. -/
theorem process_normal_intent_payment_inquiry_bug (intent_result : Intent)
    (h : intent_result.intent = "payment_inquiry") (user_message : String)
    (chat_history : List ChatMsg) (session : SessionDoc) (r : Nat)
    (travel_outcome : Except String PyDict) :
    process_normal_intent intent_result user_message chat_history session r
        travel_outcome =
      { reply := handle_agent_failure "payment_agent" r, stage_set := some "payment" } ∧
    handle_agent_failure "payment_agent" r ∈ agetD agent_fallbacks "payment_agent" [] := by
  constructor
  · simp [process_normal_intent, h, run_payment_agent_two_arg_call]
  · have h3 : r % 3 = 0 ∨ r % 3 = 1 ∨ r % 3 = 2 := by omega
    rcases h3 with h3 | h3 | h3 <;>
      simp [handle_agent_failure, randomChoice, agent_fallbacks, agetD, alookup, h3]

/-- C1 witness: a concrete `payment_inquiry` turn returns the fallback
drawn by the random index, not a payment-agent reply. -/
theorem process_normal_intent_payment_inquiry_bug_witness :
    process_normal_intent paymentInquiryIntent "I want to pay now" [] freshSession 0
        (.error "not called") =
      { reply := handle_agent_failure "payment_agent" 0, stage_set := some "payment" } ∧
    handle_agent_failure "payment_agent" 0 ∈ agetD agent_fallbacks "payment_agent" [] :=
  process_normal_intent_payment_inquiry_bug paymentInquiryIntent rfl
    "I want to pay now" [] freshSession 0 (.error "not called")

/-- Helper: `process_payment` returns exactly the keys
`output, stage, payment_link` on success and `output, stage` on its
error path. -/
theorem process_payment_keys (sid : String) (payment_info : PyDict)
    (pn rp : String) :
    (process_payment sid payment_info pn rp).map Prod.fst =
      ["output", "stage"] ∨
    (process_payment sid payment_info pn rp).map Prod.fst =
      ["output", "stage", "payment_link"] := by
  unfold process_payment
  repeat' split
  all_goals simp

/-- Helper: the dicts the tail of the `collecting_details` branch returns
have exactly the keys `output, stage` or `output, stage, payment_link`. -/
theorem collecting_details_finish_keys (payment_info : PyDict)
    (sid pn rp : String) :
    (collecting_details_finish payment_info sid pn rp).result.map Prod.fst =
      ["output", "stage"] ∨
    (collecting_details_finish payment_info sid pn rp).result.map Prod.fst =
      ["output", "stage", "payment_link"] := by
  unfold collecting_details_finish
  repeat' split
  all_goals first
    | apply process_payment_keys
    | simp

/-- Helper: the same key shapes for the email step. -/
theorem collecting_details_email_step_keys (payment_info : PyDict)
    (r : PaymentStageAnalysis) (sid pn rp : String) :
    (collecting_details_email_step payment_info r sid pn rp).result.map Prod.fst =
      ["output", "stage"] ∨
    (collecting_details_email_step payment_info r sid pn rp).result.map Prod.fst =
      ["output", "stage", "payment_link"] := by
  unfold collecting_details_email_step
  repeat' split
  all_goals first
    | apply collecting_details_finish_keys
    | simp

/-- Helper: every dict `run_payment_agent` can return has exactly the
keys `output, stage` or `output, stage, payment_link`, in order. -/
theorem run_payment_agent_result_keys (session : SessionDoc) (session_id : String)
    (analysis : Except Unit PaymentStageAnalysis) :
    (run_payment_agent session session_id analysis).result.map Prod.fst =
      ["output", "stage"] ∨
    (run_payment_agent session session_id analysis).result.map Prod.fst =
      ["output", "stage", "payment_link"] := by
  unfold run_payment_agent
  repeat' split
  all_goals first
    | apply collecting_details_email_step_keys
    | apply process_payment_keys
    | (simp
       done)
    | (simp only [acontains, Bool.and_eq_true]
       by_cases hne :
          (alookup ((alookup session.collected_info "payment_info").getD ([] : PyDict)) "name").isSome = true ∧
          (alookup ((alookup session.collected_info "payment_info").getD ([] : PyDict)) "email").isSome = true
       · rw [if_pos hne]
         apply process_payment_keys
       · rw [if_neg hne]
         simp)

/-- C9: `run_payment_agent` never returns a dict containing the key
`requires_context_switch` — for any session state and any classification
outcome — so the orchestrator's payment-stage guard
`response_data.get("requires_context_switch")` is never truthy and the
context-switch reset branch (clear `collected_info`, stage `initial`,
recursive re-orchestration) is unreachable. -/
theorem run_payment_agent_never_signals_context_switch (session : SessionDoc)
    (session_id : String) (analysis : Except Unit PaymentStageAnalysis) :
    "requires_context_switch" ∉
      (run_payment_agent session session_id analysis).result.map Prod.fst ∧
    requires_context_switch_signaled
      (run_payment_agent session session_id analysis).result = false := by
  have hnotin : "requires_context_switch" ∉
      (run_payment_agent session session_id analysis).result.map Prod.fst := by
    rcases run_payment_agent_result_keys session session_id analysis with h | h <;>
      rw [h] <;> decide
  refine ⟨hnotin, ?_⟩
  simp [requires_context_switch_signaled, alookup_eq_none_of_not_mem _ _ hnotin]

/-- C9 witness: a concrete payment turn carries no
`requires_context_switch` key and does not trigger the guard. -/
theorem run_payment_agent_never_signals_context_switch_witness :
    "requires_context_switch" ∉
      (run_payment_agent paymentSessionGold "s1" (.ok cancelAtCompleted)).result.map Prod.fst ∧
    requires_context_switch_signaled
      (run_payment_agent paymentSessionGold "s1" (.ok cancelAtCompleted)).result = false :=
  run_payment_agent_never_signals_context_switch paymentSessionGold "s1"
    (.ok cancelAtCompleted)

/-- Helper: the per-file chunk loop keeps exactly the chunks whose strip
is non-empty, in order, each packed into its ingestion object. -/
theorem chunk_loop_content (pname dt sf : String) (qgen : String → List String)
    (chunks : List String) :
    embed_product_chunk_loop pname dt sf qgen chunks =
      (chunks.filter fun c => pyStrip c ≠ "").map
        (fun c => { content := c, questions := qgen c, product_name := pname,
                    doc_type := dt, source_file := sf }) := by
  induction chunks with
  | nil => rfl
  | cons c rest ih =>
      by_cases h : pyStrip c = "" <;>
        simp [embed_product_chunk_loop, List.filter_cons, h, ih]

/-- Helper: the per-file empty counter counts the chunks whose strip is
empty. -/
theorem empty_chunks_count_eq_countP (chunks : List String) :
    empty_chunks_count chunks = chunks.countP fun c => pyStrip c = "" := by
  induction chunks with
  | nil => rfl
  | cons c rest ih =>
      by_cases h : pyStrip c = "" <;>
        simp [empty_chunks_count, List.countP_cons, h, ih, Nat.add_comm]

/-- Helper: when every object has non-empty content, the batch loop adds
each object exactly once (with or without vectors), in order. -/
theorem batch_properties_id (embed_fail : Nat → Bool) :
    ∀ (i : Nat) (objs : List IngestObject), (∀ o ∈ objs, o.content ≠ "") →
      (embed_product_batch embed_fail i objs).map BatchAdd.properties = objs := by
  intro i objs
  induction objs generalizing i with
  | nil => intro _; rfl
  | cons o rest ih =>
      intro h
      have ho : o.content ≠ "" := h o (by simp)
      have hr := ih (i + 1) (fun x hx => h x (by simp [hx]))
      by_cases hf : embed_fail i <;> simp [embed_product_batch, ho, hf, hr]

/-- C8: in every ingestion run, each object submitted to the vector
store's batch write has content that is non-empty after stripping; the
submitted contents are exactly the non-empty-stripped chunks in order
(empty ones are never sent downstream); and the separately kept empty
counts plus the emitted objects account for every chunk. -/
theorem embed_product_skips_empty_chunks (pname : String)
    (qgen : String → List String) (files : List FileChunks)
    (embed_fail : Nat → Bool) :
    (∀ b ∈ embed_product_submitted pname qgen files embed_fail,
        pyStrip b.properties.content ≠ "") ∧
    ((embed_product_submitted pname qgen files embed_fail).map
        (fun b => b.properties.content) =
      (files.flatMap FileChunks.chunks).filter fun c => pyStrip c ≠ "") ∧
    ((files.map fun f => empty_chunks_count f.chunks).sum +
        (embed_product_all_objects pname qgen files).length =
      (files.flatMap FileChunks.chunks).length) := by
  have hallmem : ∀ o ∈ embed_product_all_objects pname qgen files,
      pyStrip o.content ≠ "" := by
    intro o ho
    simp only [embed_product_all_objects, List.mem_flatMap] at ho
    obtain ⟨f, hf, hof⟩ := ho
    rw [chunk_loop_content] at hof
    simp only [List.mem_map] at hof
    obtain ⟨c, hc, rfl⟩ := hof
    simpa using (List.mem_filter.mp hc).2
  have hvalid : embed_product_valid_objects (embed_product_all_objects pname qgen files) =
      embed_product_all_objects pname qgen files := by
    apply List.filter_eq_self.mpr
    intro o ho
    have h2 := hallmem o ho
    have h1 : o.content ≠ "" := fun he => h2 (by rw [he]; rfl)
    simp [h1, h2]
  have hcontents : ∀ o ∈ embed_product_all_objects pname qgen files, o.content ≠ "" :=
    fun o ho he => hallmem o ho (by rw [he]; rfl)
  have hprops : (embed_product_submitted pname qgen files embed_fail).map
      BatchAdd.properties = embed_product_all_objects pname qgen files := by
    rw [embed_product_submitted, hvalid]
    exact batch_properties_id embed_fail 0 _ hcontents
  have hmapcontent : (embed_product_all_objects pname qgen files).map
      IngestObject.content =
      (files.flatMap FileChunks.chunks).filter (fun c => pyStrip c ≠ "") := by
    simp only [embed_product_all_objects]
    rw [List.map_flatMap, List.filter_flatMap]
    apply List.flatMap_congr
    intro f hf
    rw [chunk_loop_content, List.map_map]
    simp [Function.comp_def]
  refine ⟨?_, ?_, ?_⟩
  · intro b hb
    have : b.properties ∈ (embed_product_submitted pname qgen files embed_fail).map
        BatchAdd.properties := List.mem_map_of_mem _ hb
    rw [hprops] at this
    exact hallmem _ this
  · have : (embed_product_submitted pname qgen files embed_fail).map
        (fun b => b.properties.content) =
        ((embed_product_submitted pname qgen files embed_fail).map
          BatchAdd.properties).map IngestObject.content := by
      rw [List.map_map]
      rfl
    rw [this, hprops, hmapcontent]
  · have hlen : (embed_product_all_objects pname qgen files).length =
        ((files.flatMap FileChunks.chunks).filter (fun c => pyStrip c ≠ "")).length := by
      rw [← hmapcontent, List.length_map]
    have hsum : (files.map fun f => empty_chunks_count f.chunks).sum =
        (files.flatMap FileChunks.chunks).countP (fun c => pyStrip c = "") := by
      rw [List.countP_flatMap]
      congr 1
      apply List.map_congr_left
      intro f hf
      simp [empty_chunks_count_eq_countP, Function.comp]
    rw [hlen, hsum, ← List.countP_eq_length_filter]
    have := List.length_eq_countP_add_countP (fun c => pyStrip c = "")
      (l := files.flatMap FileChunks.chunks)
    simp only [this]
    congr 1
    apply List.countP_congr
    intro c hc
    simp

/-- C8 witness: on the sample files the empty and whitespace-only chunks
are counted (two of them) and the three real chunks, and only they, reach
the batch write. -/
theorem embed_product_skips_empty_chunks_witness :
    ((embed_product_submitted "Travel" (fun _ => ["q1"]) sampleFiles (fun _ => false)).map
        fun b => b.properties.content) =
      ["Medical expenses are covered.", "Trip cancellation benefit.",
       "Q: Am I covered overseas? A: Yes."] ∧
    (sampleFiles.map fun f => empty_chunks_count f.chunks).sum = 2 := by
  constructor <;> decide

end HLAS
